import Mathlib

/-!
# meuboletoai — reminder generation and dispatch, verified model

Shallow embedding of the reminder logic of the bill-tracking application:

* the Postgres trigger functions `handle_bills_generate_reminders` and
  `handle_bills_cancel_reminders_on_paid` (SQL migration file), which keep the
  `reminders` table consistent with bill inserts/updates, and
* the serverless dispatch `handler` (TypeScript), which selects today's unsent
  reminders, groups them by user, sends email/WhatsApp notifications, and marks
  the reminders sent.

Dates are modelled as `Int` (days); timestamps as `Int`.  UUID identifiers are
modelled as `Nat`.  External effects (the Resend email provider, the Twilio
WhatsApp provider, and datastore read/write failures) are modelled by an
oracle record `Env` supplying the outcome of each attempted call.
-/

/-- A row of `public.reminders` (migration: columns `id, user_id, bill_id,
remind_date, send_email, send_whatsapp, sent_at`).  `created_at`/`updated_at`
are bookkeeping timestamps never read by the logic and are omitted. -/
structure Reminder where
  id : Nat
  user_id : Nat
  bill_id : Nat
  remind_date : Int
  send_email : Bool
  send_whatsapp : Bool
  sent_at : Option Int
deriving DecidableEq, Repr

/-- A row of `public.bills`, restricted to the columns the reminder logic
reads (`id, user_id, title, amount, due_date, paid`). -/
structure Bill where
  id : Nat
  user_id : Nat
  title : String
  amount : Int
  due_date : Int
  paid : Bool
deriving DecidableEq, Repr

/-- A row of `public.user_settings`.  Per the migration every column is
`NOT NULL` with a default, so the recipient and offset lists are plain lists
(possibly empty), never SQL `NULL`. -/
structure UserSettings where
  user_id : Nat
  notifications_enabled : Bool
  email_recipients : List String
  whatsapp_recipients : List String
  reminder_days : List Int
deriving DecidableEq, Repr

/-- The `reminders` table together with a fresh-id counter standing in for
`gen_random_uuid()` primary-key generation. -/
structure DB where
  reminders : List Reminder
  nextId : Nat
deriving DecidableEq, Repr

/-- `EXISTS` test for a `(bill_id, remind_date)` pair, the key of the
`UNIQUE (bill_id, remind_date)` constraint on `public.reminders`. -/
def hasPair (rs : List Reminder) (b : Nat) (t : Int) : Bool :=
  rs.any (fun r => r.bill_id == b && r.remind_date == t)

/-- `INSERT INTO public.reminders ... ON CONFLICT DO NOTHING`: when a row with
the same `(bill_id, remind_date)` key exists the statement is a silent no-op;
otherwise the row is appended with a fresh id. -/
def insertReminderIgnore (db : DB) (u b : Nat) (t : Int) (e w : Bool) : DB :=
  if hasPair db.reminders b t then db
  else ⟨db.reminders ++ [⟨db.nextId, u, b, t, e, w, none⟩], db.nextId + 1⟩

/-- Offset-list resolution inside `handle_bills_generate_reminders`:
`IF s.reminder_days IS NULL OR array_length(s.reminder_days, 1) IS NULL THEN
 s.reminder_days := ARRAY[1]` — an empty (or absent) list defaults to `[1]`. -/
def resolvedDays (s : UserSettings) : List Int :=
  if s.reminder_days.isEmpty then [1] else s.reminder_days

/-- Trigger operation: `TG_OP` together with `OLD.due_date` for updates. -/
inductive TgOp where
  | ins : TgOp
  | upd (oldDue : Int) : TgOp
deriving DecidableEq, Repr

/-- `DELETE FROM public.reminders WHERE bill_id = .. AND sent_at IS NULL AND
remind_date >= CURRENT_DATE` — drops the future, unsent reminders of a bill. -/
def deleteFutureUnsent (db : DB) (billId : Nat) (today : Int) : DB :=
  ⟨db.reminders.filter
      (fun r => !(r.bill_id == billId && r.sent_at.isNone && decide (today ≤ r.remind_date))),
   db.nextId⟩

/-- The `FOREACH d IN ARRAY s.reminder_days` insertion loop of
`handle_bills_generate_reminders`: one conflict-ignoring insert per offset,
dated `due_date - d`, flags set from the recipient counts. -/
def insertLoop (s : UserSettings) (bill : Bill) (db : DB) : DB :=
  (resolvedDays s).foldl
    (fun acc d =>
      insertReminderIgnore acc bill.user_id bill.id (bill.due_date - d)
        (decide (0 < s.email_recipients.length))
        (decide (0 < s.whatsapp_recipients.length)))
    db

/-- The trigger function `public.handle_bills_generate_reminders` (fires
`AFTER INSERT` and `AFTER UPDATE OF due_date` on `public.bills`).  `sett` is
the owner's `user_settings` row (`none` when `SELECT ... INTO s` finds no
row).  If settings are absent or `notifications_enabled` is not true the
function returns at once.  Otherwise, on an update that changed the due date
it first deletes the bill's future unsent reminders, then runs the insertion
loop over the resolved offsets. -/
def handle_bills_generate_reminders (sett : Option UserSettings) (op : TgOp)
    (bill : Bill) (today : Int) (db : DB) : DB :=
  match sett with
  | none => db
  | some s =>
    if !s.notifications_enabled then db
    else
      let db1 :=
        match op with
        | .ins => db
        | .upd oldDue =>
          if bill.due_date ≠ oldDue then deleteFutureUnsent db bill.id today else db
      insertLoop s bill db1

/-- The trigger function `public.handle_bills_cancel_reminders_on_paid`
(fires `AFTER UPDATE OF paid`): when `NEW.paid IS TRUE` and the flag changed,
delete every unsent reminder of the bill, regardless of date. -/
def handle_bills_cancel_reminders_on_paid (oldPaid newPaid : Bool) (billId : Nat)
    (db : DB) : DB :=
  if newPaid && !(oldPaid == newPaid) then
    ⟨db.reminders.filter (fun r => !(r.bill_id == billId && r.sent_at.isNone)), db.nextId⟩
  else db

/-- All reminder-table effects of one `UPDATE` on `public.bills`.
`dueTouched` / `paidTouched` record whether the statement's SET list included
`due_date` / `paid` (the `AFTER UPDATE OF` column lists).  Postgres fires
same-event triggers in name order, so `bills_after_update_cancel_reminders_on_paid`
runs before `bills_after_update_generate_reminders`. -/
def bills_after_update (sett : Option UserSettings) (dueTouched paidTouched : Bool)
    (oldBill newBill : Bill) (today : Int) (db : DB) : DB :=
  let db1 :=
    if paidTouched then
      handle_bills_cancel_reminders_on_paid oldBill.paid newBill.paid newBill.id db
    else db
  if dueTouched then
    handle_bills_generate_reminders sett (.upd oldBill.due_date) newBill today db1
  else db1

/-- All reminder-table effects of one `INSERT` on `public.bills`
(`bills_after_insert_generate_reminders`). -/
def bills_after_insert (sett : Option UserSettings) (bill : Bill) (today : Int)
    (db : DB) : DB :=
  handle_bills_generate_reminders sett .ins bill today db

/-!
## Reminder dispatch (`api/send-reminders` handler)

The TypeScript handler reads today's unsent reminders, groups them by user
(JS `Map` insertion order = first-occurrence order), and for each user loads
settings, loads bills, attempts the email channel then each WhatsApp
recipient, and — when anything was sent — issues one update marking the whole
group sent.  `Env` is the oracle for provider configuration and for the
success of each external call.
-/

/-- Datastore state visible to a dispatch run. -/
structure DState where
  reminders : List Reminder
  bills : List Bill
  settings : List UserSettings
deriving DecidableEq, Repr

/-- Oracle for a dispatch run: which optional providers are configured
(`RESEND_API_KEY`; `TWILIO_ACCOUNT_SID`+`TWILIO_AUTH_TOKEN`;
`TWILIO_WHATSAPP_FROM`), and the outcome of each external call: the initial
reminder select, each per-user settings/bills fetch, each provider send, and
each mark-sent update.  `now` is the timestamp written into `sent_at`. -/
structure Env where
  emailConfigured : Bool
  twilioConfigured : Bool
  twilioFromSet : Bool
  selectErr : Bool
  settingsErr : Nat → Bool
  billsErr : Nat → Bool
  emailOk : Nat → Bool
  waOk : Nat → String → Bool
  updateOk : Nat → Bool
  now : Int

/-- One provider call recorded by the run (email to a recipient list, or one
WhatsApp message), with its success flag. -/
inductive SendEvent where
  | email (user : Nat) (recipients : List String) (ok : Bool) : SendEvent
  | whatsapp (user : Nat) (dest : String) (ok : Bool) : SendEvent
deriving DecidableEq, Repr

/-- Result JSON of the handler: the 500 error path, the "No reminders for
today" success path (which carries only `ok`, a message and the date), and
the full success path carrying the three counters and the date. -/
inductive Outcome where
  | errorResp : Outcome
  | noWork (date : Int) : Outcome
  | done (usersProcessed emailsSent whatsappsSent : Nat) (date : Int) : Outcome
deriving DecidableEq, Repr

/-- The `usersProcessed` field of the response, when the response has one. -/
def outcomeUsers : Outcome → Option Nat
  | .done u _ _ _ => some u
  | _ => none

/-- The `emailsSent` field of the response, when the response has one. -/
def outcomeEmails : Outcome → Option Nat
  | .done _ e _ _ => some e
  | _ => none

/-- The `whatsappsSent` field of the response, when the response has one. -/
def outcomeWhatsapps : Outcome → Option Nat
  | .done _ _ w _ => some w
  | _ => none

/-- Everything a dispatch run produces: the HTTP-level outcome, the datastore
state after the run, and the trace of provider calls made. -/
structure DispatchRun where
  outcome : Outcome
  state : DState
  trace : List SendEvent
deriving Repr

/-- `supabase.from('user_settings').select('*').eq('user_id', u).single()`:
`single()` errors unless exactly one row matches; `env.settingsErr u` models
a datastore failure.  The handler treats error and missing alike (skip). -/
def fetchSettings (env : Env) (st : DState) (u : Nat) : Option UserSettings :=
  if env.settingsErr u then none
  else
    match st.settings.filter (fun s => s.user_id == u) with
    | [s] => some s
    | _ => none

/-- Today's due selection:
`.eq('remind_date', todayStr).is('sent_at', null)`. -/
def dueToday (today : Int) (rs : List Reminder) : List Reminder :=
  rs.filter (fun r => r.remind_date == today && r.sent_at.isNone)

/-- First-occurrence order of user ids in the due list — the iteration order
of the JS `Map` built by the grouping loop. -/
def usersOf (rs : List Reminder) : List Nat :=
  rs.foldl (fun acc r => if acc.contains r.user_id then acc else acc ++ [r.user_id]) []

/-- This user's group: the due reminders owned by `u`. -/
def groupFor (due : List Reminder) (u : Nat) : List Reminder :=
  due.filter (fun r => r.user_id == u)

/-- WhatsApp address normalization:
`toRaw.startsWith('whatsapp:') ? toRaw : 'whatsapp:' + toRaw`. -/
def normalizeWa (toRaw : String) : String :=
  if toRaw.startsWith "whatsapp:" then toRaw else "whatsapp:" ++ toRaw

/-- The mark-sent write:
`.update({ sent_at: now }).in('id', remIds)` over the reminders table. -/
def markSent (now : Int) (ids : List Nat) (rs : List Reminder) : List Reminder :=
  rs.map (fun r => if ids.contains r.id then { r with sent_at := some now } else r)

/-- The email branch of the per-user loop.  Attempted only when the provider
is configured (`EMAIL_FROM` always holds a default, so only `RESEND_API_KEY`
gates), some reminder in the group has `send_email`, and the recipient list
is non-empty.  Returns (success flag, recipients counted into `emailsSent`,
trace). -/
def emailBranch (env : Env) (u : Nat) (s : UserSettings) (urs : List Reminder) :
    Bool × Nat × List SendEvent :=
  let wantsEmail := env.emailConfigured && urs.any (fun r => r.send_email)
  if wantsEmail && !s.email_recipients.isEmpty then
    if env.emailOk u then (true, s.email_recipients.length, [SendEvent.email u s.email_recipients true])
    else (false, 0, [SendEvent.email u s.email_recipients false])
  else (false, 0, [])

/-- Body of the WhatsApp recipient loop: normalize the address, attempt the
send, and on success bump the message count and the `sentSomething` flag (a
failed recipient leaves both untouched and the loop continues). -/
def waStep (env : Env) (u : Nat) (p : Nat × Bool × List SendEvent) (toRaw : String) :
    Nat × Bool × List SendEvent :=
  let dest := normalizeWa toRaw
  if env.waOk u dest then (p.1 + 1, true, p.2.2 ++ [SendEvent.whatsapp u dest true])
  else (p.1, p.2.1, p.2.2 ++ [SendEvent.whatsapp u dest false])

/-- The WhatsApp branch: when the provider is configured, some reminder in
the group has `send_whatsapp`, and the recipient list is non-empty, loop over
the recipients, sending to each independently.  `sent0` is the running
`sentSomething` flag coming out of the email branch.  Returns (messages
counted into `whatsappsSent`, updated `sentSomething`, trace). -/
def waBranch (env : Env) (u : Nat) (s : UserSettings) (urs : List Reminder)
    (sent0 : Bool) : Nat × Bool × List SendEvent :=
  let wantsWa := env.twilioConfigured && env.twilioFromSet && urs.any (fun r => r.send_whatsapp)
  if wantsWa && !s.whatsapp_recipients.isEmpty then
    s.whatsapp_recipients.foldl (waStep env u) (0, sent0, [])
  else (0, sent0, [])

/-- Accumulator of the per-user loop: the reminders table as updated so far
plus the three counters and the provider-call trace. -/
structure RunAcc where
  reminders : List Reminder
  usersProcessed : Nat
  emailsSent : Nat
  whatsappsSent : Nat
  trace : List SendEvent
deriving Repr

/-- One iteration of `for (const [userId, userReminders] of byUser)`:
skip on settings error/missing, on disabled notifications, or on a bills
fetch error; otherwise run both channel branches, and if anything was sent
issue the single mark-sent update for the whole group (the counters are
bumped at send time, before the update; `usersProcessed` and the store
change only materialize when the update succeeds). -/
def stepUser (env : Env) (st : DState) (acc : RunAcc) (u : Nat) (urs : List Reminder) : RunAcc :=
  match fetchSettings env st u with
  | none => acc
  | some s =>
    if !s.notifications_enabled then acc
    else if env.billsErr u then acc
    else
      let eb := emailBranch env u s urs
      let wb := waBranch env u s urs eb.1
      let sentSomething := wb.2.1
      let marked := sentSomething && env.updateOk u
      { reminders :=
          if marked then markSent env.now (urs.map (fun r => r.id)) acc.reminders
          else acc.reminders,
        usersProcessed := acc.usersProcessed + (if marked then 1 else 0),
        emailsSent := acc.emailsSent + eb.2.1,
        whatsappsSent := acc.whatsappsSent + wb.1,
        trace := acc.trace ++ eb.2.2 ++ wb.2.2 }

/-- The dispatch handler (TypeScript `handler` in the send-reminders API
route), for a GET/POST invocation with the mandatory datastore configuration
present: select today's unsent reminders (a failure here aborts the run with
the 500 response), return the no-work success response when none, otherwise
process each user group in first-occurrence order and return the aggregate
counters. -/
def handler (env : Env) (today : Int) (st : DState) : DispatchRun :=
  if env.selectErr then ⟨.errorResp, st, []⟩
  else
    let due := dueToday today st.reminders
    if due.isEmpty then ⟨.noWork today, st, []⟩
    else
      let fin := (usersOf due).foldl
        (fun acc u => stepUser env st acc u (groupFor due u))
        ⟨st.reminders, 0, 0, 0, []⟩
      ⟨.done fin.usersProcessed fin.emailsSent fin.whatsappsSent today,
       { st with reminders := fin.reminders }, fin.trace⟩

/-!
## Basic facts about the reminder-generation primitives
-/

/-- Number of reminder rows with a given `(bill_id, remind_date)` key. -/
def pairCount (rs : List Reminder) (b : Nat) (t : Int) : Nat :=
  rs.countP (fun r => r.bill_id == b && r.remind_date == t)

lemma hasPair_iff (rs : List Reminder) (b : Nat) (t : Int) :
    hasPair rs b t = true ↔ ∃ r ∈ rs, r.bill_id = b ∧ r.remind_date = t := by
  simp [hasPair, List.any_eq_true]

lemma hasPair_false_count (rs : List Reminder) (b : Nat) (t : Int)
    (h : hasPair rs b t = false) : pairCount rs b t = 0 := by
  rw [pairCount, List.countP_eq_zero]
  intro a ha hpa
  have : hasPair rs b t = true := by
    rw [hasPair, List.any_eq_true]
    exact ⟨a, ha, hpa⟩
  rw [h] at this
  exact Bool.false_ne_true this

lemma mem_insertReminderIgnore (db : DB) (u b : Nat) (t : Int) (e w : Bool)
    (r : Reminder) (hr : r ∈ db.reminders) :
    r ∈ (insertReminderIgnore db u b t e w).reminders := by
  unfold insertReminderIgnore
  by_cases hc : hasPair db.reminders b t
  · simpa [hc] using hr
  · simp only [hc, if_false]
    exact List.mem_append_left _ hr

lemma hasPair_insert_mono (db : DB) (u b : Nat) (t : Int) (e w : Bool)
    (b' : Nat) (t' : Int) (h : hasPair db.reminders b' t' = true) :
    hasPair (insertReminderIgnore db u b t e w).reminders b' t' = true := by
  rw [hasPair_iff] at h ⊢
  obtain ⟨r, hr, hk⟩ := h
  exact ⟨r, mem_insertReminderIgnore db u b t e w r hr, hk⟩

lemma hasPair_insert_self (db : DB) (u b : Nat) (t : Int) (e w : Bool) :
    hasPair (insertReminderIgnore db u b t e w).reminders b t = true := by
  unfold insertReminderIgnore
  by_cases hc : hasPair db.reminders b t
  · simp [hc]
  · simp only [hc, if_false]
    rw [hasPair_iff]
    exact ⟨⟨db.nextId, u, b, t, e, w, none⟩, by simp, rfl, rfl⟩

lemma pairCount_insert_le_one (db : DB) (u b : Nat) (t' : Int) (e w : Bool)
    (t : Int) (h : pairCount db.reminders b t ≤ 1) :
    pairCount (insertReminderIgnore db u b t' e w).reminders b t ≤ 1 := by
  unfold insertReminderIgnore
  by_cases hc : hasPair db.reminders b t'
  · simpa [hc]
  · simp only [hc, if_false]
    show pairCount (db.reminders ++ [⟨db.nextId, u, b, t', e, w, none⟩]) b t ≤ 1
    rw [pairCount, List.countP_append]
    by_cases ht : t = t'
    · subst ht
      have h0 : pairCount db.reminders b t = 0 :=
        hasPair_false_count _ _ _ (by simpa using hc)
      rw [pairCount] at h0
      simp [h0]
    · have : (List.countP (fun r => r.bill_id == b && r.remind_date == t)
          [(⟨db.nextId, u, b, t', e, w, none⟩ : Reminder)]) = 0 := by
        simp only [List.countP_cons, List.countP_nil]
        simp
        exact fun hh => ht hh.symm
      rw [this]
      simpa [pairCount] using h

lemma loopIns_mem (u b : Nat) (due : Int) (e w : Bool) :
    ∀ (ds : List Int) (db : DB) (r : Reminder), r ∈ db.reminders →
      r ∈ ((ds.foldl (fun acc d => insertReminderIgnore acc u b (due - d) e w) db).reminders) := by
  intro ds
  induction ds with
  | nil => intro db r hr; exact hr
  | cons d ds ih =>
    intro db r hr
    exact ih _ _ (mem_insertReminderIgnore db u b (due - d) e w r hr)

lemma loopIns_hasPair_mono (u b : Nat) (due : Int) (e w : Bool) :
    ∀ (ds : List Int) (db : DB) (b' : Nat) (t' : Int),
      hasPair db.reminders b' t' = true →
      hasPair ((ds.foldl (fun acc d => insertReminderIgnore acc u b (due - d) e w) db).reminders) b' t' = true := by
  intro ds
  induction ds with
  | nil => intro db b' t' h; exact h
  | cons d ds ih =>
    intro db b' t' h
    exact ih _ _ _ (hasPair_insert_mono db u b (due - d) e w b' t' h)

lemma loopIns_hasPair (u b : Nat) (due : Int) (e w : Bool) :
    ∀ (ds : List Int) (db : DB) (d : Int), d ∈ ds →
      hasPair ((ds.foldl (fun acc d => insertReminderIgnore acc u b (due - d) e w) db).reminders) b (due - d) = true := by
  intro ds
  induction ds with
  | nil => intro db d hd; cases hd
  | cons d0 ds ih =>
    intro db d hd
    rcases List.mem_cons.mp hd with h | h
    · subst h
      exact loopIns_hasPair_mono u b due e w ds _ b (due - d)
        (hasPair_insert_self db u b (due - d) e w)
    · exact ih _ _ h

lemma loopIns_count_le_one (u b : Nat) (due : Int) (e w : Bool) :
    ∀ (ds : List Int) (db : DB),
      (∀ t, pairCount db.reminders b t ≤ 1) →
      (∀ t, pairCount ((ds.foldl (fun acc d => insertReminderIgnore acc u b (due - d) e w) db).reminders) b t ≤ 1) := by
  intro ds
  induction ds with
  | nil => intro db h; exact h
  | cons d ds ih =>
    intro db h
    exact ih _ (fun t => pairCount_insert_le_one db u b (due - d) e w t (h t))

lemma loopIns_rows (u b : Nat) (due : Int) (e w : Bool) (D : List Int) :
    ∀ (ds : List Int) (db : DB),
      (∀ d ∈ ds, d ∈ D) →
      (∀ r ∈ db.reminders, r.bill_id = b →
        r.user_id = u ∧ r.send_email = e ∧ r.send_whatsapp = w ∧ r.sent_at = none ∧
        ∃ d ∈ D, r.remind_date = due - d) →
      (∀ r ∈ ((ds.foldl (fun acc d => insertReminderIgnore acc u b (due - d) e w) db).reminders),
        r.bill_id = b →
        r.user_id = u ∧ r.send_email = e ∧ r.send_whatsapp = w ∧ r.sent_at = none ∧
        ∃ d ∈ D, r.remind_date = due - d) := by
  intro ds
  induction ds with
  | nil => intro db _ hinv; exact hinv
  | cons d ds ih =>
    intro db hds hinv
    refine ih _ (fun x hx => hds x (List.mem_cons_of_mem d hx)) ?_
    intro r hr hb
    simp only [insertReminderIgnore] at hr
    by_cases hc : hasPair db.reminders b (due - d)
    · rw [if_pos hc] at hr
      exact hinv r hr hb
    · rw [if_neg hc] at hr
      rcases List.mem_append.mp hr with h | h
      · exact hinv r h hb
      · have : r = ⟨db.nextId, u, b, due - d, e, w, none⟩ := by simpa using h
        subst this
        exact ⟨rfl, rfl, rfl, rfl, d, hds d (List.mem_cons_self d ds), rfl⟩

lemma hasPair_true_count_pos (rs : List Reminder) (b : Nat) (t : Int)
    (h : hasPair rs b t = true) : 0 < pairCount rs b t := by
  rw [hasPair, List.any_eq_true] at h
  rw [pairCount, List.countP_pos_iff]
  exact h

/-- C1: for every bill inserted whose owner's settings row exists with
notifications enabled, the generation trigger creates, for each offset `d`
in the resolved offset list (`reminder_days`, defaulting to `[1]` when
empty), exactly one reminder dated `due_date - d`; every reminder row of the
bill has `send_email` true iff the owner has at least one email recipient,
`send_whatsapp` true iff at least one WhatsApp recipient, is unsent, belongs
to the bill's owner, and is dated `due_date - d` for some configured `d`. -/
theorem generate_on_insert_offsets (s : UserSettings) (bill : Bill) (today : Int) (db : DB)
    (hFresh : ∀ r ∈ db.reminders, r.bill_id ≠ bill.id)
    (hEnabled : s.notifications_enabled = true) :
    (∀ d ∈ resolvedDays s,
       pairCount (handle_bills_generate_reminders (some s) TgOp.ins bill today db).reminders
         bill.id (bill.due_date - d) = 1)
    ∧ (∀ r ∈ (handle_bills_generate_reminders (some s) TgOp.ins bill today db).reminders,
        r.bill_id = bill.id →
          (r.send_email = true ↔ s.email_recipients ≠ []) ∧
          (r.send_whatsapp = true ↔ s.whatsapp_recipients ≠ []) ∧
          r.sent_at = none ∧ r.user_id = bill.user_id ∧
          ∃ d ∈ resolvedDays s, r.remind_date = bill.due_date - d) := by
  have hun : handle_bills_generate_reminders (some s) TgOp.ins bill today db
      = insertLoop s bill db := by
    simp [handle_bills_generate_reminders, hEnabled]
  have hzero : ∀ t, pairCount db.reminders bill.id t ≤ 1 := by
    intro t
    have h0 : pairCount db.reminders bill.id t = 0 := by
      rw [pairCount, List.countP_eq_zero]
      intro a ha hpa
      have hb : a.bill_id = bill.id := by
        have := (Bool.and_eq_true _ _).mp hpa
        exact beq_iff_eq.mp this.1
      exact hFresh a ha hb
    omega
  constructor
  · intro d hd
    rw [hun]
    have h1 : hasPair (insertLoop s bill db).reminders bill.id (bill.due_date - d) = true := by
      rw [insertLoop]
      exact loopIns_hasPair _ _ _ _ _ _ _ _ hd
    have h2 : pairCount (insertLoop s bill db).reminders bill.id (bill.due_date - d) ≤ 1 := by
      rw [insertLoop]
      exact loopIns_count_le_one _ _ _ _ _ _ _ hzero _
    have h3 := hasPair_true_count_pos _ _ _ h1
    omega
  · intro r hr hb
    rw [hun, insertLoop] at hr
    have hbase : ∀ r ∈ db.reminders, r.bill_id = bill.id →
        r.user_id = bill.user_id ∧
        r.send_email = decide (0 < s.email_recipients.length) ∧
        r.send_whatsapp = decide (0 < s.whatsapp_recipients.length) ∧
        r.sent_at = none ∧ ∃ d ∈ resolvedDays s, r.remind_date = bill.due_date - d := by
      intro r hr hb
      exact absurd hb (hFresh r hr)
    have hmain := loopIns_rows bill.user_id bill.id bill.due_date
      (decide (0 < s.email_recipients.length)) (decide (0 < s.whatsapp_recipients.length))
      (resolvedDays s) (resolvedDays s) db (fun _ h => h) hbase r hr hb
    obtain ⟨hu, he, hw, hs, d, hd, hdate⟩ := hmain
    refine ⟨?_, ?_, hs, hu, d, hd, hdate⟩
    · rw [he]
      simp [List.length_pos]
    · rw [hw]
      simp [List.length_pos]

/-- Witness for C1 at the spec's own test point: offsets `{1, 3}` produce
exactly one reminder dated `due_date - 1` and one dated `due_date - 3`. -/
theorem generate_on_insert_offsets_witness :
    pairCount (handle_bills_generate_reminders
        (some ⟨7, true, ["a@x.com"], [], [1, 3]⟩) TgOp.ins
        ⟨1, 7, "conta", 100, 20, false⟩ 10 ⟨[], 0⟩).reminders 1 (20 - 1) = 1
    ∧ pairCount (handle_bills_generate_reminders
        (some ⟨7, true, ["a@x.com"], [], [1, 3]⟩) TgOp.ins
        ⟨1, 7, "conta", 100, 20, false⟩ 10 ⟨[], 0⟩).reminders 1 (20 - 3) = 1 :=
  ⟨(generate_on_insert_offsets ⟨7, true, ["a@x.com"], [], [1, 3]⟩
      ⟨1, 7, "conta", 100, 20, false⟩ 10 ⟨[], 0⟩ (by simp) rfl).1 1 (by decide),
   (generate_on_insert_offsets ⟨7, true, ["a@x.com"], [], [1, 3]⟩
      ⟨1, 7, "conta", 100, 20, false⟩ 10 ⟨[], 0⟩ (by simp) rfl).1 3 (by decide)⟩

/-- C3 (amended): for a bill update that changes the due date, when the
owner's settings row exists with notifications enabled, the trigger first
deletes the bill's not-yet-sent reminders dated today-or-later and then
re-runs the creation loop against the new due date; reminders of other
bills, already-sent reminders, and past-dated reminders survive untouched,
and afterwards every resolved offset has a reminder at `due_date - d`.
The final conjunct shows the delete stage removes every future unsent
reminder of the bill. -/
theorem generate_on_due_change (s : UserSettings) (oldDue : Int) (bill : Bill)
    (today : Int) (db : DB)
    (hEnabled : s.notifications_enabled = true)
    (hChanged : bill.due_date ≠ oldDue) :
    handle_bills_generate_reminders (some s) (TgOp.upd oldDue) bill today db
      = insertLoop s bill (deleteFutureUnsent db bill.id today)
    ∧ (∀ r ∈ db.reminders,
        (r.bill_id ≠ bill.id ∨ r.sent_at ≠ none ∨ r.remind_date < today) →
        r ∈ (handle_bills_generate_reminders (some s) (TgOp.upd oldDue) bill today db).reminders)
    ∧ (∀ d ∈ resolvedDays s,
        hasPair (handle_bills_generate_reminders (some s) (TgOp.upd oldDue) bill today db).reminders
          bill.id (bill.due_date - d) = true)
    ∧ (∀ r ∈ db.reminders, r.bill_id = bill.id → r.sent_at = none →
        today ≤ r.remind_date → r ∉ (deleteFutureUnsent db bill.id today).reminders) := by
  have hun : handle_bills_generate_reminders (some s) (TgOp.upd oldDue) bill today db
      = insertLoop s bill (deleteFutureUnsent db bill.id today) := by
    simp [handle_bills_generate_reminders, hEnabled, hChanged]
  refine ⟨hun, ?_, ?_, ?_⟩
  · intro r hr hkeep
    rw [hun, insertLoop]
    refine loopIns_mem _ _ _ _ _ _ _ r ?_
    show r ∈ (deleteFutureUnsent db bill.id today).reminders
    rw [deleteFutureUnsent]
    refine List.mem_filter.mpr ⟨hr, ?_⟩
    rcases hkeep with h | h | h
    · simp [h]
    · simp
      exact Or.inl (Or.inr (Option.isSome_iff_ne_none.mpr h))
    · simp [not_le.mpr h]
  · intro d hd
    rw [hun, insertLoop]
    exact loopIns_hasPair _ _ _ _ _ _ _ _ hd
  · intro r hr hb hsent hdate hmem
    rw [deleteFutureUnsent] at hmem
    have := (List.mem_filter.mp hmem).2
    simp [hb, hsent, hdate] at this

/-- Witness for C3 at a concrete store: the already-sent reminder, the
past-dated unsent reminder, and the other bill's reminder survive the
due-date change, the new offset date is present, and the stale future
unsent reminder is removed by the delete stage. -/
theorem generate_on_due_change_witness :
    (⟨0, 7, 1, 12, true, false, some 5⟩ : Reminder) ∈
      (handle_bills_generate_reminders (some ⟨7, true, ["a@x.com"], [], [1]⟩) (TgOp.upd 25)
        ⟨1, 7, "conta", 0, 30, false⟩ 10
        ⟨[⟨0, 7, 1, 12, true, false, some 5⟩, ⟨1, 7, 1, 8, true, false, none⟩,
          ⟨2, 7, 1, 15, true, false, none⟩, ⟨3, 7, 2, 15, true, false, none⟩], 4⟩).reminders
    ∧ (⟨1, 7, 1, 8, true, false, none⟩ : Reminder) ∈
      (handle_bills_generate_reminders (some ⟨7, true, ["a@x.com"], [], [1]⟩) (TgOp.upd 25)
        ⟨1, 7, "conta", 0, 30, false⟩ 10
        ⟨[⟨0, 7, 1, 12, true, false, some 5⟩, ⟨1, 7, 1, 8, true, false, none⟩,
          ⟨2, 7, 1, 15, true, false, none⟩, ⟨3, 7, 2, 15, true, false, none⟩], 4⟩).reminders
    ∧ hasPair
        (handle_bills_generate_reminders (some ⟨7, true, ["a@x.com"], [], [1]⟩) (TgOp.upd 25)
          ⟨1, 7, "conta", 0, 30, false⟩ 10
          ⟨[⟨0, 7, 1, 12, true, false, some 5⟩, ⟨1, 7, 1, 8, true, false, none⟩,
            ⟨2, 7, 1, 15, true, false, none⟩, ⟨3, 7, 2, 15, true, false, none⟩], 4⟩).reminders
        1 (30 - 1) = true
    ∧ (⟨2, 7, 1, 15, true, false, none⟩ : Reminder) ∉
      (deleteFutureUnsent
        ⟨[⟨0, 7, 1, 12, true, false, some 5⟩, ⟨1, 7, 1, 8, true, false, none⟩,
          ⟨2, 7, 1, 15, true, false, none⟩, ⟨3, 7, 2, 15, true, false, none⟩], 4⟩ 1 10).reminders :=
  ⟨(generate_on_due_change ⟨7, true, ["a@x.com"], [], [1]⟩ 25 ⟨1, 7, "conta", 0, 30, false⟩ 10
      _ rfl (by decide)).2.1 _ (by simp) (Or.inr (Or.inl (by decide))),
   (generate_on_due_change ⟨7, true, ["a@x.com"], [], [1]⟩ 25 ⟨1, 7, "conta", 0, 30, false⟩ 10
      _ rfl (by decide)).2.1 _ (by simp) (Or.inr (Or.inr (by decide))),
   (generate_on_due_change ⟨7, true, ["a@x.com"], [], [1]⟩ 25 ⟨1, 7, "conta", 0, 30, false⟩ 10
      _ rfl (by decide)).2.2.1 1 (by decide),
   (generate_on_due_change ⟨7, true, ["a@x.com"], [], [1]⟩ 25 ⟨1, 7, "conta", 0, 30, false⟩ 10
      _ rfl (by decide)).2.2.2 _ (by simp) rfl rfl (by decide)⟩

/-- Counterexample to C3 as stated: the settings gate runs before the
delete, so a due-date-changing update for an owner whose notifications are
disabled deletes nothing — the stale future unsent reminder survives. -/
theorem generate_on_due_change_counterexample :
    handle_bills_generate_reminders (some ⟨7, false, [], [], [1]⟩) (TgOp.upd 70)
        ⟨1, 7, "", 0, 80, false⟩ 50 ⟨[⟨0, 7, 1, 60, false, false, none⟩], 1⟩
      = ⟨[⟨0, 7, 1, 60, false, false, none⟩], 1⟩
    ∧ ((80 : Int) ≠ 70)
    ∧ (⟨0, 7, 1, 60, false, false, none⟩ : Reminder).sent_at = none
    ∧ ((50 : Int) ≤ (60 : Int)) := by
  exact ⟨rfl, by decide, rfl, by decide⟩

/-- C4 (amended): for a bill update touching only the `paid` column, a
false-to-true transition deletes exactly the bill's not-yet-sent reminders
(all dates; already-sent rows are kept; nothing is created), and a
true-to-false transition leaves the reminder table unchanged. -/
theorem cancel_on_paid_transition (sett : Option UserSettings) (oldBill newBill : Bill)
    (today : Int) (db : DB) :
    (oldBill.paid = false → newBill.paid = true →
       bills_after_update sett false true oldBill newBill today db
         = ⟨db.reminders.filter (fun r => !(r.bill_id == newBill.id && r.sent_at.isNone)),
            db.nextId⟩)
    ∧ (oldBill.paid = false → newBill.paid = true →
       ∀ r ∈ db.reminders, r.sent_at ≠ none →
         r ∈ (bills_after_update sett false true oldBill newBill today db).reminders)
    ∧ (oldBill.paid = true → newBill.paid = false →
       bills_after_update sett false true oldBill newBill today db = db) := by
  refine ⟨?_, ?_, ?_⟩
  · intro h1 h2
    simp [bills_after_update, handle_bills_cancel_reminders_on_paid, h1, h2]
  · intro h1 h2 r hr hsent
    simp only [bills_after_update, handle_bills_cancel_reminders_on_paid, h1, h2]
    simp only [if_false, Bool.not_false, Bool.and_true, if_true]
    refine List.mem_filter.mpr ⟨hr, ?_⟩
    simp
    exact Or.inr (Option.isSome_iff_ne_none.mpr hsent)
  · intro h1 h2
    simp [bills_after_update, handle_bills_cancel_reminders_on_paid, h1, h2]

/-- Witness for C4 at a concrete store: marking paid removes the unsent
reminder and keeps the sent one; marking unpaid (alone) changes nothing. -/
theorem cancel_on_paid_transition_witness :
    bills_after_update none false true ⟨1, 7, "", 0, 30, false⟩ ⟨1, 7, "", 0, 30, true⟩ 10
        ⟨[⟨0, 7, 1, 12, true, false, some 5⟩, ⟨2, 7, 1, 40, true, false, none⟩], 4⟩
      = ⟨[⟨0, 7, 1, 12, true, false, some 5⟩], 4⟩
    ∧ bills_after_update none false true ⟨1, 7, "", 0, 30, true⟩ ⟨1, 7, "", 0, 30, false⟩ 10
        ⟨[⟨0, 7, 1, 12, true, false, some 5⟩], 4⟩
      = ⟨[⟨0, 7, 1, 12, true, false, some 5⟩], 4⟩ := by
  refine ⟨?_, (cancel_on_paid_transition none _ _ 10 _).2.2 rfl rfl⟩
  rw [(cancel_on_paid_transition none ⟨1, 7, "", 0, 30, false⟩ ⟨1, 7, "", 0, 30, true⟩ 10 _).1 rfl rfl]
  decide

/-- Counterexample to C4 as stated: an update that flips `paid` from true
to false while also changing `due_date` fires the generation trigger after
the cancel trigger, so a reminder is created even though the claim says a
true-to-false transition creates and deletes nothing. -/
theorem cancel_on_paid_counterexample :
    ((bills_after_update (some ⟨7, true, ["a@x.com"], [], [1]⟩) true true
        ⟨1, 7, "", 5, 30, true⟩ ⟨1, 7, "", 5, 40, false⟩ 0 ⟨[], 0⟩).reminders).length = 1
    ∧ (⟨1, 7, "", 5, 30, true⟩ : Bill).paid = true
    ∧ (⟨1, 7, "", 5, 40, false⟩ : Bill).paid = false
    ∧ (([] : List Reminder)).length = 0 := by
  decide

/-- C7: a bill insert whose owner has no settings row, or whose settings
have notifications disabled, creates zero reminders and completes without
error — the trigger returns the store unchanged. -/
theorem generate_disabled_noop (bill : Bill) (today : Int) (db : DB) :
    handle_bills_generate_reminders none TgOp.ins bill today db = db
    ∧ ∀ s : UserSettings, s.notifications_enabled = false →
        handle_bills_generate_reminders (some s) TgOp.ins bill today db = db := by
  refine ⟨rfl, ?_⟩
  intro s hs
  simp [handle_bills_generate_reminders, hs]

/-- Witness for C7: a concrete insert under missing and under disabled
settings leaves the empty store empty. -/
theorem generate_disabled_noop_witness :
    handle_bills_generate_reminders none TgOp.ins ⟨1, 7, "conta", 100, 20, false⟩ 10 ⟨[], 0⟩
      = ⟨[], 0⟩
    ∧ handle_bills_generate_reminders (some ⟨7, false, ["a@x.com"], [], [1]⟩) TgOp.ins
        ⟨1, 7, "conta", 100, 20, false⟩ 10 ⟨[], 0⟩ = ⟨[], 0⟩ :=
  ⟨(generate_disabled_noop ⟨1, 7, "conta", 100, 20, false⟩ 10 ⟨[], 0⟩).1,
   (generate_disabled_noop ⟨1, 7, "conta", 100, 20, false⟩ 10 ⟨[], 0⟩).2 _ rfl⟩

/-!
## Characterizing one per-user dispatch iteration
-/

/-- The per-user gate of the dispatch loop: the settings fetch must succeed
and find a row, `notifications_enabled` must hold, and the bills fetch must
succeed; otherwise the user is skipped. -/
def userGate (env : Env) (st : DState) (u : Nat) : Option UserSettings :=
  match fetchSettings env st u with
  | none => none
  | some s =>
    if !s.notifications_enabled then none
    else if env.billsErr u then none
    else some s

/-- The email attempt succeeds for a user: provider configured, some
reminder in the group requested email, at least one recipient, send ok. -/
def emailSuccess (env : Env) (u : Nat) (s : UserSettings) (urs : List Reminder) : Bool :=
  env.emailConfigured && urs.any (fun r => r.send_email) && !s.email_recipients.isEmpty
    && env.emailOk u

/-- The WhatsApp recipient loop runs for a user: provider and from-address
configured, some reminder in the group requested WhatsApp, at least one
recipient. -/
def waAttempted (env : Env) (_u : Nat) (s : UserSettings) (urs : List Reminder) : Bool :=
  env.twilioConfigured && env.twilioFromSet && urs.any (fun r => r.send_whatsapp)
    && !s.whatsapp_recipients.isEmpty

/-- Number of WhatsApp messages delivered for a user (each recipient is
attempted independently when the loop runs at all). -/
def waSuccessCount (env : Env) (u : Nat) (s : UserSettings) (urs : List Reminder) : Nat :=
  if waAttempted env u s urs then
    s.whatsapp_recipients.countP (fun t => env.waOk u (normalizeWa t))
  else 0

/-- `sentSomething` at the end of a user's channel attempts: the email send
succeeded, or at least one WhatsApp recipient send succeeded. -/
def userSent (env : Env) (u : Nat) (s : UserSettings) (urs : List Reminder) : Bool :=
  emailSuccess env u s urs
    || (waAttempted env u s urs && s.whatsapp_recipients.any (fun t => env.waOk u (normalizeWa t)))

/-- Some channel attempt succeeded for the user (false when the user is
skipped before any attempt). -/
def userSentFull (env : Env) (st : DState) (u : Nat) (urs : List Reminder) : Bool :=
  match userGate env st u with
  | none => false
  | some s => userSent env u s urs

/-- The user's group gets marked sent: some channel succeeded and the
mark-sent update itself succeeded. -/
def shouldMark (env : Env) (st : DState) (u : Nat) (urs : List Reminder) : Bool :=
  match userGate env st u with
  | none => false
  | some s => userSent env u s urs && env.updateOk u

/-- Contribution of this user to the `emailsSent` counter (the recipient
count on a successful email send; the counter is bumped before the
mark-sent update and regardless of its outcome). -/
def userEmailsAdd (env : Env) (st : DState) (u : Nat) (urs : List Reminder) : Nat :=
  match userGate env st u with
  | none => 0
  | some s => if emailSuccess env u s urs then s.email_recipients.length else 0

/-- Contribution of this user to the `whatsappsSent` counter. -/
def userWaAdd (env : Env) (st : DState) (u : Nat) (urs : List Reminder) : Nat :=
  match userGate env st u with
  | none => 0
  | some s => waSuccessCount env u s urs

lemma shouldMark_eq (env : Env) (st : DState) (u : Nat) (urs : List Reminder) :
    shouldMark env st u urs = (userSentFull env st u urs && env.updateOk u) := by
  unfold shouldMark userSentFull
  cases userGate env st u <;> simp

lemma emailBranch_fst (env : Env) (u : Nat) (s : UserSettings) (urs : List Reminder) :
    (emailBranch env u s urs).1 = emailSuccess env u s urs := by
  unfold emailBranch emailSuccess
  by_cases h1 : (env.emailConfigured && urs.any (fun r => r.send_email))
      && !s.email_recipients.isEmpty
  · by_cases h2 : env.emailOk u <;>
      simp_all [Bool.and_assoc]
  · simp only [h1, if_false]
    rw [Bool.and_assoc] at h1
    simp_all

lemma emailBranch_count (env : Env) (u : Nat) (s : UserSettings) (urs : List Reminder) :
    (emailBranch env u s urs).2.1
      = (if emailSuccess env u s urs then s.email_recipients.length else 0) := by
  unfold emailBranch emailSuccess
  by_cases h1 : (env.emailConfigured && urs.any (fun r => r.send_email))
      && !s.email_recipients.isEmpty
  · by_cases h2 : env.emailOk u <;>
      simp_all [Bool.and_assoc]
  · simp only [h1, if_false]
    rw [Bool.and_assoc] at h1
    simp_all

lemma waFold_fst (env : Env) (u : Nat) :
    ∀ (recips : List String) (n : Nat) (b : Bool) (tr : List SendEvent),
      (recips.foldl (waStep env u) (n, b, tr)).1
        = n + recips.countP (fun t => env.waOk u (normalizeWa t)) := by
  intro recips
  induction recips with
  | nil => intro n b tr; simp
  | cons t ts ih =>
    intro n b tr
    rw [List.foldl_cons]
    by_cases h : env.waOk u (normalizeWa t)
    · have hstep : waStep env u (n, b, tr) t
          = (n + 1, true, tr ++ [SendEvent.whatsapp u (normalizeWa t) true]) := by
        simp [waStep, h]
      rw [hstep, ih, List.countP_cons]
      simp [h]
      omega
    · have hstep : waStep env u (n, b, tr) t
          = (n, b, tr ++ [SendEvent.whatsapp u (normalizeWa t) false]) := by
        simp [waStep, h]
      rw [hstep, ih, List.countP_cons]
      simp [h]

lemma waFold_sent (env : Env) (u : Nat) :
    ∀ (recips : List String) (n : Nat) (b : Bool) (tr : List SendEvent),
      (recips.foldl (waStep env u) (n, b, tr)).2.1
        = (b || recips.any (fun t => env.waOk u (normalizeWa t))) := by
  intro recips
  induction recips with
  | nil => intro n b tr; simp
  | cons t ts ih =>
    intro n b tr
    rw [List.foldl_cons]
    by_cases h : env.waOk u (normalizeWa t)
    · have hstep : waStep env u (n, b, tr) t
          = (n + 1, true, tr ++ [SendEvent.whatsapp u (normalizeWa t) true]) := by
        simp [waStep, h]
      rw [hstep, ih]
      simp [h]
    · have hstep : waStep env u (n, b, tr) t
          = (n, b, tr ++ [SendEvent.whatsapp u (normalizeWa t) false]) := by
        simp [waStep, h]
      rw [hstep, ih]
      simp [h]

lemma waBranch_count (env : Env) (u : Nat) (s : UserSettings) (urs : List Reminder)
    (sent0 : Bool) :
    (waBranch env u s urs sent0).1 = waSuccessCount env u s urs := by
  simp only [waBranch, waSuccessCount, waAttempted]
  by_cases h : (env.twilioConfigured && env.twilioFromSet
      && urs.any (fun r => r.send_whatsapp)) && !s.whatsapp_recipients.isEmpty
  · simp only [h, if_true]
    simpa using waFold_fst env u s.whatsapp_recipients 0 sent0 []
  · simp only [h, if_false]
    rfl

lemma waBranch_sent (env : Env) (u : Nat) (s : UserSettings) (urs : List Reminder)
    (sent0 : Bool) :
    (waBranch env u s urs sent0).2.1
      = (sent0 || (waAttempted env u s urs
            && s.whatsapp_recipients.any (fun t => env.waOk u (normalizeWa t)))) := by
  simp only [waBranch, waAttempted]
  by_cases h : (env.twilioConfigured && env.twilioFromSet
      && urs.any (fun r => r.send_whatsapp)) && !s.whatsapp_recipients.isEmpty
  · simp only [h, if_true, Bool.true_and]
    exact waFold_sent env u s.whatsapp_recipients 0 sent0 []
  · simp only [h, if_false, Bool.false_and, Bool.or_false]
    rfl

lemma stepUser_reminders (env : Env) (st : DState) (acc : RunAcc) (u : Nat)
    (urs : List Reminder) :
    (stepUser env st acc u urs).reminders
      = acc.reminders.map (fun r =>
          if shouldMark env st u urs && (urs.map (fun x => x.id)).contains r.id
          then { r with sent_at := some env.now } else r) := by
  cases hfs : fetchSettings env st u with
  | none =>
    have hg : userGate env st u = none := by simp [userGate, hfs]
    simp [stepUser, hfs, shouldMark, hg, List.map_id']
  | some s =>
    by_cases hen : s.notifications_enabled
    · by_cases hbe : env.billsErr u
      · have hg : userGate env st u = none := by simp [userGate, hfs, hen, hbe]
        simp [stepUser, hfs, hen, hbe, shouldMark, hg, List.map_id']
      · have hg : userGate env st u = some s := by simp [userGate, hfs, hen, hbe]
        have hsm : shouldMark env st u urs = (userSent env u s urs && env.updateOk u) := by
          simp [shouldMark, hg]
        simp only [stepUser, hfs, hen, hbe, Bool.not_true, if_false, ite_false]
        rw [waBranch_sent, emailBranch_fst]
        have hus : (emailSuccess env u s urs
            || (waAttempted env u s urs
                && s.whatsapp_recipients.any (fun t => env.waOk u (normalizeWa t))))
            = userSent env u s urs := rfl
        rw [hus, hsm]
        cases hm : (userSent env u s urs && env.updateOk u)
        · simp [hm, List.map_id']
        · simp [hm, markSent]
    · have hg : userGate env st u = none := by simp [userGate, hfs, hen]
      simp [stepUser, hfs, hen, shouldMark, hg, List.map_id']

lemma stepUser_usersProcessed (env : Env) (st : DState) (acc : RunAcc) (u : Nat)
    (urs : List Reminder) :
    (stepUser env st acc u urs).usersProcessed
      = acc.usersProcessed + (if shouldMark env st u urs then 1 else 0) := by
  cases hfs : fetchSettings env st u with
  | none =>
    have hg : userGate env st u = none := by simp [userGate, hfs]
    simp [stepUser, hfs, shouldMark, hg]
  | some s =>
    by_cases hen : s.notifications_enabled
    · by_cases hbe : env.billsErr u
      · have hg : userGate env st u = none := by simp [userGate, hfs, hen, hbe]
        simp [stepUser, hfs, hen, hbe, shouldMark, hg]
      · have hg : userGate env st u = some s := by simp [userGate, hfs, hen, hbe]
        have hsm : shouldMark env st u urs = (userSent env u s urs && env.updateOk u) := by
          simp [shouldMark, hg]
        simp only [stepUser, hfs, hen, hbe, Bool.not_true, if_false, ite_false]
        rw [waBranch_sent, emailBranch_fst]
        have hus : (emailSuccess env u s urs
            || (waAttempted env u s urs
                && s.whatsapp_recipients.any (fun t => env.waOk u (normalizeWa t))))
            = userSent env u s urs := rfl
        rw [hus, hsm]
        simp
    · have hg : userGate env st u = none := by simp [userGate, hfs, hen]
      simp [stepUser, hfs, hen, shouldMark, hg]

lemma stepUser_emailsSent (env : Env) (st : DState) (acc : RunAcc) (u : Nat)
    (urs : List Reminder) :
    (stepUser env st acc u urs).emailsSent
      = acc.emailsSent + userEmailsAdd env st u urs := by
  cases hfs : fetchSettings env st u with
  | none =>
    have hg : userGate env st u = none := by simp [userGate, hfs]
    simp [stepUser, hfs, userEmailsAdd, hg]
  | some s =>
    by_cases hen : s.notifications_enabled
    · by_cases hbe : env.billsErr u
      · have hg : userGate env st u = none := by simp [userGate, hfs, hen, hbe]
        simp [stepUser, hfs, hen, hbe, userEmailsAdd, hg]
      · have hg : userGate env st u = some s := by simp [userGate, hfs, hen, hbe]
        have had : userEmailsAdd env st u urs
            = (if emailSuccess env u s urs then s.email_recipients.length else 0) := by
          simp [userEmailsAdd, hg]
        simp only [stepUser, hfs, hen, hbe, Bool.not_true, if_false, ite_false]
        rw [emailBranch_count, had]
        simp
    · have hg : userGate env st u = none := by simp [userGate, hfs, hen]
      simp [stepUser, hfs, hen, userEmailsAdd, hg]

lemma stepUser_whatsappsSent (env : Env) (st : DState) (acc : RunAcc) (u : Nat)
    (urs : List Reminder) :
    (stepUser env st acc u urs).whatsappsSent
      = acc.whatsappsSent + userWaAdd env st u urs := by
  cases hfs : fetchSettings env st u with
  | none =>
    have hg : userGate env st u = none := by simp [userGate, hfs]
    simp [stepUser, hfs, userWaAdd, hg]
  | some s =>
    by_cases hen : s.notifications_enabled
    · by_cases hbe : env.billsErr u
      · have hg : userGate env st u = none := by simp [userGate, hfs, hen, hbe]
        simp [stepUser, hfs, hen, hbe, userWaAdd, hg]
      · have hg : userGate env st u = some s := by simp [userGate, hfs, hen, hbe]
        have had : userWaAdd env st u urs = waSuccessCount env u s urs := by
          simp [userWaAdd, hg]
        simp only [stepUser, hfs, hen, hbe, Bool.not_true, if_false, ite_false]
        rw [waBranch_count, had]
        simp
    · have hg : userGate env st u = none := by simp [userGate, hfs, hen]
      simp [stepUser, hfs, hen, userWaAdd, hg]

/-!
## Characterizing a whole dispatch run
-/

/-- A reminder row is written by the run: some user in `us` had a channel
success and a successful mark-sent update, and the row's id is in that
user's group. -/
def markedBy (env : Env) (st : DState) (due : List Reminder) (us : List Nat)
    (r : Reminder) : Bool :=
  us.any (fun u => shouldMark env st u (groupFor due u)
    && ((groupFor due u).map (fun x => x.id)).contains r.id)

lemma foldUsers_reminders (env : Env) (st : DState) (due : List Reminder) :
    ∀ (us : List Nat) (acc : RunAcc),
      ((us.foldl (fun a u => stepUser env st a u (groupFor due u)) acc).reminders)
        = acc.reminders.map (fun r =>
            if markedBy env st due us r then { r with sent_at := some env.now } else r) := by
  intro us
  induction us with
  | nil => intro acc; simp [markedBy, List.map_id']
  | cons u us ih =>
    intro acc
    rw [List.foldl_cons, ih, stepUser_reminders, List.map_map]
    apply List.map_congr_left
    intro r _
    simp only [Function.comp_apply]
    by_cases hc : (shouldMark env st u (groupFor due u)
        && ((groupFor due u).map (fun x => x.id)).contains r.id)
    · rw [if_pos hc]
      have h1 : markedBy env st due (u :: us) r = true := by
        simp only [markedBy, List.any_cons]
        rw [hc]
        simp
      rw [h1]
      have hconv : markedBy env st due us ({ r with sent_at := some env.now })
          = markedBy env st due us r := rfl
      rw [hconv]
      cases hmm : markedBy env st due us r
      · simp
      · simp
    · rw [if_neg hc]
      have h1 : markedBy env st due (u :: us) r = markedBy env st due us r := by
        have hcf : (shouldMark env st u (groupFor due u)
            && ((groupFor due u).map (fun x => x.id)).contains r.id) = false := by
          simpa using hc
        simp only [markedBy, List.any_cons]
        rw [hcf]
        simp [markedBy]
      rw [h1]

lemma foldUsers_usersProcessed (env : Env) (st : DState) (due : List Reminder) :
    ∀ (us : List Nat) (acc : RunAcc),
      ((us.foldl (fun a u => stepUser env st a u (groupFor due u)) acc).usersProcessed)
        = acc.usersProcessed + us.countP (fun u => shouldMark env st u (groupFor due u)) := by
  intro us
  induction us with
  | nil => intro acc; simp
  | cons u us ih =>
    intro acc
    rw [List.foldl_cons, ih, stepUser_usersProcessed, List.countP_cons]
    by_cases h : shouldMark env st u (groupFor due u)
    · simp [h]
      omega
    · simp [h]

lemma foldUsers_emailsSent (env : Env) (st : DState) (due : List Reminder) :
    ∀ (us : List Nat) (acc : RunAcc),
      ((us.foldl (fun a u => stepUser env st a u (groupFor due u)) acc).emailsSent)
        = acc.emailsSent + (us.map (fun u => userEmailsAdd env st u (groupFor due u))).sum := by
  intro us
  induction us with
  | nil => intro acc; simp
  | cons u us ih =>
    intro acc
    rw [List.foldl_cons, ih, stepUser_emailsSent, List.map_cons, List.sum_cons]
    omega

lemma foldUsers_whatsappsSent (env : Env) (st : DState) (due : List Reminder) :
    ∀ (us : List Nat) (acc : RunAcc),
      ((us.foldl (fun a u => stepUser env st a u (groupFor due u)) acc).whatsappsSent)
        = acc.whatsappsSent + (us.map (fun u => userWaAdd env st u (groupFor due u))).sum := by
  intro us
  induction us with
  | nil => intro acc; simp
  | cons u us ih =>
    intro acc
    rw [List.foldl_cons, ih, stepUser_whatsappsSent, List.map_cons, List.sum_cons]
    omega

lemma handler_err (env : Env) (today : Int) (st : DState) (hse : env.selectErr = true) :
    handler env today st = ⟨.errorResp, st, []⟩ := by
  simp [handler, hse]

lemma handler_noWork (env : Env) (today : Int) (st : DState)
    (hse : env.selectErr = false) (hnil : dueToday today st.reminders = []) :
    handler env today st = ⟨.noWork today, st, []⟩ := by
  simp [handler, hse, hnil]

lemma handler_reminders (env : Env) (today : Int) (st : DState) :
    (handler env today st).state.reminders
      = st.reminders.map (fun r =>
          if (!env.selectErr && markedBy env st (dueToday today st.reminders)
              (usersOf (dueToday today st.reminders)) r)
          then { r with sent_at := some env.now } else r) := by
  by_cases hse : env.selectErr
  · simp [handler, hse, List.map_id']
  · by_cases hemp : (dueToday today st.reminders).isEmpty
    · have hnil : dueToday today st.reminders = [] := by
        simpa using hemp
      rw [handler_noWork env today st (by simp [hse]) hnil, hnil]
      show st.reminders = _
      simp [markedBy, usersOf, List.map_id']
    · simp only [handler, hse, Bool.false_eq_true, if_false, hemp]
      rw [foldUsers_reminders]
      apply (List.map_congr_left _).symm
      intro r _
      simp [hse]

lemma handler_bills (env : Env) (today : Int) (st : DState) :
    (handler env today st).state.bills = st.bills := by
  by_cases hse : env.selectErr
  · simp [handler, hse]
  · by_cases hemp : (dueToday today st.reminders).isEmpty <;>
      simp [handler, hse, hemp]

lemma handler_settings (env : Env) (today : Int) (st : DState) :
    (handler env today st).state.settings = st.settings := by
  by_cases hse : env.selectErr
  · simp [handler, hse]
  · by_cases hemp : (dueToday today st.reminders).isEmpty <;>
      simp [handler, hse, hemp]

lemma handler_outcome_done (env : Env) (today : Int) (st : DState)
    (hse : env.selectErr = false) (hne : dueToday today st.reminders ≠ []) :
    (handler env today st).outcome
      = Outcome.done
          ((usersOf (dueToday today st.reminders)).countP
            (fun u => shouldMark env st u (groupFor (dueToday today st.reminders) u)))
          (((usersOf (dueToday today st.reminders)).map
            (fun u => userEmailsAdd env st u (groupFor (dueToday today st.reminders) u))).sum)
          (((usersOf (dueToday today st.reminders)).map
            (fun u => userWaAdd env st u (groupFor (dueToday today st.reminders) u))).sum)
          today := by
  have hemp : (dueToday today st.reminders).isEmpty = false := by
    simpa using hne
  simp only [handler, hse, Bool.false_eq_true, if_false, hemp]
  rw [foldUsers_usersProcessed, foldUsers_emailsSent, foldUsers_whatsappsSent]
  simp

lemma usersOf_aux :
    ∀ (rs : List Reminder) (acc : List Nat) (u : Nat),
      (u ∈ acc ∨ ∃ r ∈ rs, r.user_id = u) →
      u ∈ rs.foldl
        (fun acc r => if acc.contains r.user_id then acc else acc ++ [r.user_id]) acc := by
  intro rs
  induction rs with
  | nil =>
    intro acc u h
    rcases h with h | ⟨r, hr, _⟩
    · exact h
    · cases hr
  | cons r0 rs ih =>
    intro acc u h
    rw [List.foldl_cons]
    apply ih
    rcases h with h | ⟨r, hr, hu⟩
    · left
      by_cases hcont : acc.contains r0.user_id
      · rw [if_pos hcont]
        exact h
      · simp only [hcont, if_false]
        exact List.mem_append_left _ h
    · rcases List.mem_cons.mp hr with h0 | h0
      · left
        subst h0
        by_cases hcont : acc.contains r.user_id
        · simp only [hcont, if_true]
          subst hu
          simpa using hcont
        · simp only [hcont, if_false]
          subst hu
          simp
      · right
        exact ⟨r, h0, hu⟩

lemma mem_usersOf (rs : List Reminder) (r : Reminder) (hr : r ∈ rs) :
    r.user_id ∈ usersOf rs :=
  usersOf_aux rs [] r.user_id (Or.inr ⟨r, hr, rfl⟩)

lemma nodup_id_inj (rs : List Reminder)
    (h : (rs.map (fun r => r.id)).Nodup)
    {r1 r2 : Reminder} (h1 : r1 ∈ rs) (h2 : r2 ∈ rs) (hid : r1.id = r2.id) :
    r1 = r2 := by
  by_contra hne
  have hpw : rs.Pairwise (fun a b => a.id ≠ b.id) := List.pairwise_map.mp h
  have hsym : Symmetric (fun a b : Reminder => a.id ≠ b.id) := fun _ _ hab => Ne.symm hab
  exact absurd hid (List.Pairwise.forall hsym hpw h1 h2 hne)

lemma not_marked_of_user (env : Env) (today : Int) (st : DState) (u : Nat)
    (hnd : (st.reminders.map (fun r => r.id)).Nodup)
    (hsm : shouldMark env st u (groupFor (dueToday today st.reminders) u) = false)
    (r : Reminder) (hr : r ∈ st.reminders) (hu : r.user_id = u) :
    markedBy env st (dueToday today st.reminders)
      (usersOf (dueToday today st.reminders)) r = false := by
  by_contra hx
  have hx' : markedBy env st (dueToday today st.reminders)
      (usersOf (dueToday today st.reminders)) r = true := by
    simpa using hx
  rw [markedBy, List.any_eq_true] at hx'
  obtain ⟨u', _, hcond⟩ := hx'
  have hcond' := (Bool.and_eq_true _ _).mp hcond
  have hid : r.id ∈ (groupFor (dueToday today st.reminders) u').map (fun x => x.id) := by
    simpa using hcond'.2
  obtain ⟨r', hr'g, hid'⟩ := List.mem_map.mp hid
  have hr'du : r' ∈ dueToday today st.reminders := (List.mem_filter.mp hr'g).1
  have hr'u : r'.user_id = u' := by
    simpa using (List.mem_filter.mp hr'g).2
  have hr'in : r' ∈ st.reminders := (List.mem_filter.mp hr'du).1
  have heq : r' = r := nodup_id_inj _ hnd hr'in hr hid'
  have huu : u' = u := by rw [← hr'u, heq, hu]
  rw [huu] at hcond'
  have hcontra := hcond'.1
  rw [hsm] at hcontra
  cases hcontra

/-- C9: a dispatch run's only datastore write is setting `sent_at` (to the
dispatch timestamp) on reminder rows whose id lies in the group of a user
for whom a channel send and the mark-sent update both succeeded
(`markedBy`); bill rows, user-settings rows, and every other field of every
reminder row are unchanged. -/
theorem dispatch_frame (env : Env) (today : Int) (st : DState) :
    (handler env today st).state.bills = st.bills
    ∧ (handler env today st).state.settings = st.settings
    ∧ (handler env today st).state.reminders
      = st.reminders.map (fun r =>
          if (!env.selectErr && markedBy env st (dueToday today st.reminders)
              (usersOf (dueToday today st.reminders)) r)
          then { r with sent_at := some env.now } else r) :=
  ⟨handler_bills env today st, handler_settings env today st,
   handler_reminders env today st⟩

/-- C2: in a dispatch run, when some channel attempt succeeded for a user
(and the group's single mark-sent update succeeds), every due unsent
reminder of that user carries the dispatch timestamp afterwards; when no
channel attempt succeeded, every reminder of that user survives unchanged
(so it remains unsent for a later run). -/
theorem dispatch_group_mark_semantics (env : Env) (today : Int) (st : DState) (u : Nat)
    (hse : env.selectErr = false)
    (hnd : (st.reminders.map (fun r => r.id)).Nodup) :
    (userSentFull env st u (groupFor (dueToday today st.reminders) u) = true →
      env.updateOk u = true →
      ∀ r ∈ st.reminders, r.user_id = u → r.remind_date = today → r.sent_at = none →
        { r with sent_at := some env.now } ∈ (handler env today st).state.reminders)
    ∧ (userSentFull env st u (groupFor (dueToday today st.reminders) u) = false →
      ∀ r ∈ st.reminders, r.user_id = u → r ∈ (handler env today st).state.reminders) := by
  constructor
  · intro hsent hupd r hr hu hdate hunsent
    have hdue : r ∈ dueToday today st.reminders := by
      rw [dueToday]
      refine List.mem_filter.mpr ⟨hr, ?_⟩
      simp [hdate, hunsent]
    have hgrp : r ∈ groupFor (dueToday today st.reminders) u := by
      rw [groupFor]
      refine List.mem_filter.mpr ⟨hdue, ?_⟩
      simp [hu]
    have huin : u ∈ usersOf (dueToday today st.reminders) := by
      have := mem_usersOf _ r hdue
      rwa [hu] at this
    have hsm : shouldMark env st u (groupFor (dueToday today st.reminders) u) = true := by
      rw [shouldMark_eq, hsent, hupd]
      rfl
    have hmk : markedBy env st (dueToday today st.reminders)
        (usersOf (dueToday today st.reminders)) r = true := by
      rw [markedBy, List.any_eq_true]
      refine ⟨u, huin, ?_⟩
      rw [Bool.and_eq_true]
      refine ⟨hsm, ?_⟩
      have hmem : r.id ∈ (groupFor (dueToday today st.reminders) u).map (fun x => x.id) :=
        List.mem_map.mpr ⟨r, hgrp, rfl⟩
      simpa using hmem
    rw [handler_reminders]
    exact List.mem_map.mpr ⟨r, hr, by simp [hse, hmk]⟩
  · intro hsent r hr hu
    have hsm : shouldMark env st u (groupFor (dueToday today st.reminders) u) = false := by
      rw [shouldMark_eq, hsent]
      rfl
    have hmk := not_marked_of_user env today st u hnd hsm r hr hu
    rw [handler_reminders]
    exact List.mem_map.mpr ⟨r, hr, by simp [hmk]⟩

/-- Witness for C2 at the spec's own scenario: two due unsent reminders of
the same user (different bills); the email send succeeds and every WhatsApp
recipient send fails; after the run both reminders carry the dispatch
timestamp. -/
theorem dispatch_group_mark_semantics_witness :
    (⟨0, 7, 1, 10, true, true, some 999⟩ : Reminder) ∈
      (handler ⟨true, true, true, false, fun _ => false, fun _ => false,
          fun _ => true, fun _ _ => false, fun _ => true, 999⟩ 10
        ⟨[⟨0, 7, 1, 10, true, true, none⟩, ⟨1, 7, 2, 10, true, true, none⟩], [],
         [⟨7, true, ["a@x.com"], ["+55"], [1]⟩]⟩).state.reminders
    ∧ (⟨1, 7, 2, 10, true, true, some 999⟩ : Reminder) ∈
      (handler ⟨true, true, true, false, fun _ => false, fun _ => false,
          fun _ => true, fun _ _ => false, fun _ => true, 999⟩ 10
        ⟨[⟨0, 7, 1, 10, true, true, none⟩, ⟨1, 7, 2, 10, true, true, none⟩], [],
         [⟨7, true, ["a@x.com"], ["+55"], [1]⟩]⟩).state.reminders :=
  ⟨(dispatch_group_mark_semantics
      ⟨true, true, true, false, fun _ => false, fun _ => false,
        fun _ => true, fun _ _ => false, fun _ => true, 999⟩ 10
      ⟨[⟨0, 7, 1, 10, true, true, none⟩, ⟨1, 7, 2, 10, true, true, none⟩], [],
       [⟨7, true, ["a@x.com"], ["+55"], [1]⟩]⟩ 7 rfl (by decide)).1
      (by decide) rfl ⟨0, 7, 1, 10, true, true, none⟩ (by decide) rfl rfl rfl,
   (dispatch_group_mark_semantics
      ⟨true, true, true, false, fun _ => false, fun _ => false,
        fun _ => true, fun _ _ => false, fun _ => true, 999⟩ 10
      ⟨[⟨0, 7, 1, 10, true, true, none⟩, ⟨1, 7, 2, 10, true, true, none⟩], [],
       [⟨7, true, ["a@x.com"], ["+55"], [1]⟩]⟩ 7 rfl (by decide)).1
      (by decide) rfl ⟨1, 7, 2, 10, true, true, none⟩ (by decide) rfl rfl rfl⟩

/-- C8: a selection failure aborts the whole run with the error response and
no writes; a user skipped by the per-user gate (settings fetch failure or
missing row, notifications disabled, or bills fetch failure) keeps all their
reminders unchanged; and — whenever the selection succeeded and found work —
the run still completes with a `done` response, whatever happened inside the
per-user loop. -/
theorem dispatch_failure_isolation (env : Env) (today : Int) (st : DState) :
    (env.selectErr = true → handler env today st = ⟨Outcome.errorResp, st, []⟩)
    ∧ ((st.reminders.map (fun r => r.id)).Nodup →
       ∀ u, userGate env st u = none →
         ∀ r ∈ st.reminders, r.user_id = u →
           r ∈ (handler env today st).state.reminders)
    ∧ (env.selectErr = false → dueToday today st.reminders ≠ [] →
       ∃ a b c, (handler env today st).outcome = Outcome.done a b c today) := by
  refine ⟨handler_err env today st, ?_, ?_⟩
  · intro hnd u hg r hr hu
    have hsm : shouldMark env st u (groupFor (dueToday today st.reminders) u) = false := by
      simp [shouldMark, hg]
    have hmk := not_marked_of_user env today st u hnd hsm r hr hu
    rw [handler_reminders]
    exact List.mem_map.mpr ⟨r, hr, by simp [hmk]⟩
  · intro hse hne
    exact ⟨_, _, _, handler_outcome_done env today st hse hne⟩

/-- Witness for C8: with the selection failing the run aborts with the error
response; with one user's settings fetch failing that user's reminder stays
unchanged while the run still returns a `done` response (the other user is
processed). -/
theorem dispatch_failure_isolation_witness :
    handler ⟨true, true, true, true, fun u => u == 7, fun _ => false,
        fun _ => true, fun _ _ => false, fun _ => true, 999⟩ 10
      ⟨[⟨0, 7, 1, 10, true, false, none⟩, ⟨1, 8, 2, 10, true, false, none⟩], [],
       [⟨8, true, ["b@x.com"], [], [1]⟩]⟩
      = ⟨Outcome.errorResp,
         ⟨[⟨0, 7, 1, 10, true, false, none⟩, ⟨1, 8, 2, 10, true, false, none⟩], [],
          [⟨8, true, ["b@x.com"], [], [1]⟩]⟩, []⟩
    ∧ (⟨0, 7, 1, 10, true, false, none⟩ : Reminder) ∈
      (handler ⟨true, true, true, false, fun u => u == 7, fun _ => false,
          fun _ => true, fun _ _ => false, fun _ => true, 999⟩ 10
        ⟨[⟨0, 7, 1, 10, true, false, none⟩, ⟨1, 8, 2, 10, true, false, none⟩], [],
         [⟨8, true, ["b@x.com"], [], [1]⟩]⟩).state.reminders
    ∧ ∃ a b c,
      (handler ⟨true, true, true, false, fun u => u == 7, fun _ => false,
          fun _ => true, fun _ _ => false, fun _ => true, 999⟩ 10
        ⟨[⟨0, 7, 1, 10, true, false, none⟩, ⟨1, 8, 2, 10, true, false, none⟩], [],
         [⟨8, true, ["b@x.com"], [], [1]⟩]⟩).outcome = Outcome.done a b c 10 :=
  ⟨(dispatch_failure_isolation
      ⟨true, true, true, true, fun u => u == 7, fun _ => false,
        fun _ => true, fun _ _ => false, fun _ => true, 999⟩ 10
      ⟨[⟨0, 7, 1, 10, true, false, none⟩, ⟨1, 8, 2, 10, true, false, none⟩], [],
       [⟨8, true, ["b@x.com"], [], [1]⟩]⟩).1 rfl,
   (dispatch_failure_isolation
      ⟨true, true, true, false, fun u => u == 7, fun _ => false,
        fun _ => true, fun _ _ => false, fun _ => true, 999⟩ 10
      ⟨[⟨0, 7, 1, 10, true, false, none⟩, ⟨1, 8, 2, 10, true, false, none⟩], [],
       [⟨8, true, ["b@x.com"], [], [1]⟩]⟩).2.1 (by decide) 7 (by decide)
      ⟨0, 7, 1, 10, true, false, none⟩ (by decide) rfl,
   (dispatch_failure_isolation
      ⟨true, true, true, false, fun u => u == 7, fun _ => false,
        fun _ => true, fun _ _ => false, fun _ => true, 999⟩ 10
      ⟨[⟨0, 7, 1, 10, true, false, none⟩, ⟨1, 8, 2, 10, true, false, none⟩], [],
       [⟨8, true, ["b@x.com"], [], [1]⟩]⟩).2.2 rfl (by decide)⟩

/-- C6 (amended): a dispatch run that finds zero due unsent reminders for
today performs no provider sends (empty trace), performs no writes (state
unchanged), does not error, and returns the no-work success response — which
carries the date but, unlike the full success response, no `usersProcessed`
count. -/
theorem dispatch_no_due_noop (env : Env) (today : Int) (st : DState)
    (hse : env.selectErr = false)
    (hnil : dueToday today st.reminders = []) :
    handler env today st = ⟨Outcome.noWork today, st, []⟩ :=
  handler_noWork env today st hse hnil

/-- Witness for C6: a store whose only reminder is due on another day
yields the untouched-state no-work response. -/
theorem dispatch_no_due_noop_witness :
    handler ⟨true, true, true, false, fun _ => false, fun _ => false,
        fun _ => true, fun _ _ => false, fun _ => true, 999⟩ 5
      ⟨[⟨0, 7, 1, 9, true, false, none⟩], [], []⟩
      = ⟨Outcome.noWork 5, ⟨[⟨0, 7, 1, 9, true, false, none⟩], [], []⟩, []⟩ :=
  dispatch_no_due_noop
    ⟨true, true, true, false, fun _ => false, fun _ => false,
      fun _ => true, fun _ _ => false, fun _ => true, 999⟩ 5
    ⟨[⟨0, 7, 1, 9, true, false, none⟩], [], []⟩ rfl (by decide)

/-- Counterexample to C6 as stated: the no-work success response is the
"No reminders for today" message object, which has no `usersProcessed`
field at all — so the run does not return a result with
`usersProcessed = 0`. -/
theorem dispatch_no_due_counterexample :
    (handler ⟨true, true, true, false, fun _ => false, fun _ => false,
        fun _ => true, fun _ _ => false, fun _ => true, 999⟩ 5
      ⟨[⟨0, 7, 1, 9, true, false, none⟩], [], []⟩).outcome = Outcome.noWork 5
    ∧ outcomeUsers ((handler ⟨true, true, true, false, fun _ => false, fun _ => false,
        fun _ => true, fun _ _ => false, fun _ => true, 999⟩ 5
      ⟨[⟨0, 7, 1, 9, true, false, none⟩], [], []⟩).outcome) = none
    ∧ ¬ outcomeUsers ((handler ⟨true, true, true, false, fun _ => false, fun _ => false,
        fun _ => true, fun _ _ => false, fun _ => true, 999⟩ 5
      ⟨[⟨0, 7, 1, 9, true, false, none⟩], [], []⟩).outcome) = some 0 := by
  decide

/-- C10: the `emailsSent` / `whatsappsSent` counters are independent of the
mark-sent update outcomes (replacing the update oracle leaves them
unchanged); on a run with work, the response is `done` with
`usersProcessed` counting exactly the users whose channel attempt succeeded
AND whose mark-sent update succeeded, while the provider counters sum the
per-user send successes (`userEmailsAdd` / `userWaAdd`, neither of which
reads the update oracle); consequently a run whose only user has a
successful email send but a failing update reports `emailsSent = 1` with
`usersProcessed = 0`. -/
theorem dispatch_counter_semantics :
    (∀ (env : Env) (f : Nat → Bool) (today : Int) (st : DState),
       outcomeEmails ((handler { env with updateOk := f } today st).outcome)
         = outcomeEmails ((handler env today st).outcome)
       ∧ outcomeWhatsapps ((handler { env with updateOk := f } today st).outcome)
         = outcomeWhatsapps ((handler env today st).outcome))
    ∧ (∀ (env : Env) (today : Int) (st : DState),
       env.selectErr = false → dueToday today st.reminders ≠ [] →
       (handler env today st).outcome
         = Outcome.done
             ((usersOf (dueToday today st.reminders)).countP
               (fun u => userSentFull env st u (groupFor (dueToday today st.reminders) u)
                 && env.updateOk u))
             (((usersOf (dueToday today st.reminders)).map
               (fun u => userEmailsAdd env st u (groupFor (dueToday today st.reminders) u))).sum)
             (((usersOf (dueToday today st.reminders)).map
               (fun u => userWaAdd env st u (groupFor (dueToday today st.reminders) u))).sum)
             today)
    ∧ (handler ⟨true, true, true, false, fun _ => false, fun _ => false,
          fun _ => true, fun _ _ => false, fun _ => false, 999⟩ 0
        ⟨[⟨0, 7, 1, 0, true, false, none⟩], [], [⟨7, true, ["a@x.com"], [], [1]⟩]⟩).outcome
      = Outcome.done 0 1 0 0 := by
  refine ⟨?_, ?_, ?_⟩
  · intro env f today st
    by_cases hse : env.selectErr
    · constructor
      · rw [handler_err env today st hse, handler_err { env with updateOk := f } today st hse]
      · rw [handler_err env today st hse, handler_err { env with updateOk := f } today st hse]
    · have hse2 : env.selectErr = false := by simpa using hse
      by_cases hnil : dueToday today st.reminders = []
      · constructor
        · rw [handler_noWork env today st hse2 hnil,
              handler_noWork { env with updateOk := f } today st hse2 hnil]
        · rw [handler_noWork env today st hse2 hnil,
              handler_noWork { env with updateOk := f } today st hse2 hnil]
      · constructor
        · rw [handler_outcome_done env today st hse2 hnil,
              handler_outcome_done { env with updateOk := f } today st hse2 hnil]
          rfl
        · rw [handler_outcome_done env today st hse2 hnil,
              handler_outcome_done { env with updateOk := f } today st hse2 hnil]
          rfl
  · intro env today st hse hne
    rw [handler_outcome_done env today st hse hne]
    have hpred : (fun u => shouldMark env st u (groupFor (dueToday today st.reminders) u))
        = (fun u => userSentFull env st u (groupFor (dueToday today st.reminders) u)
            && env.updateOk u) :=
      funext (fun u => shouldMark_eq env st u _)
    rw [hpred]
  · decide

/-- Witness for C10: at the concrete run above (one user, one due reminder,
email succeeds, mark-sent update fails) the formula of the theorem
evaluates to `emailsSent = 1` with `usersProcessed = 0`. -/
theorem dispatch_counter_semantics_witness :
    (handler ⟨true, true, true, false, fun _ => false, fun _ => false,
        fun _ => true, fun _ _ => false, fun _ => false, 999⟩ 0
      ⟨[⟨0, 7, 1, 0, true, false, none⟩], [], [⟨7, true, ["a@x.com"], [], [1]⟩]⟩).outcome
      = Outcome.done 0 1 0 0 :=
  dispatch_counter_semantics.2.1
    ⟨true, true, true, false, fun _ => false, fun _ => false,
      fun _ => true, fun _ _ => false, fun _ => false, 999⟩ 0
    ⟨[⟨0, 7, 1, 0, true, false, none⟩], [], [⟨7, true, ["a@x.com"], [], [1]⟩]⟩
    rfl (by decide)

/-!
## The (bill, remind date) uniqueness invariant
-/

/-- No two reminder rows share a `(bill_id, remind_date)` key — the
`UNIQUE (bill_id, remind_date)` constraint of the migration. -/
def PairUnique (rs : List Reminder) : Prop :=
  List.Pairwise (fun a b => ¬(a.bill_id = b.bill_id ∧ a.remind_date = b.remind_date)) rs

lemma pairUnique_filter (rs : List Reminder) (p : Reminder → Bool) (h : PairUnique rs) :
    PairUnique (rs.filter p) :=
  List.Pairwise.sublist (List.filter_sublist rs) h

lemma pairUnique_insert (db : DB) (u b : Nat) (t : Int) (e w : Bool)
    (h : PairUnique db.reminders) :
    PairUnique (insertReminderIgnore db u b t e w).reminders := by
  unfold insertReminderIgnore
  by_cases hc : hasPair db.reminders b t
  · simpa [hc]
  · simp only [hc, if_false]
    show PairUnique (db.reminders ++ [⟨db.nextId, u, b, t, e, w, none⟩])
    rw [PairUnique, List.pairwise_append]
    refine ⟨h, List.pairwise_singleton _ _, ?_⟩
    intro a ha b' hb'
    have hb'' : b' = ⟨db.nextId, u, b, t, e, w, none⟩ := by simpa using hb'
    subst hb''
    rintro ⟨h1, h2⟩
    apply hc
    rw [hasPair_iff]
    exact ⟨a, ha, h1, h2⟩

lemma pairUnique_loopIns (u b : Nat) (due : Int) (e w : Bool) :
    ∀ (ds : List Int) (db : DB), PairUnique db.reminders →
      PairUnique ((ds.foldl (fun acc d => insertReminderIgnore acc u b (due - d) e w) db).reminders) := by
  intro ds
  induction ds with
  | nil => intro db h; exact h
  | cons d ds ih =>
    intro db h
    exact ih _ (pairUnique_insert db u b (due - d) e w h)

lemma pairUnique_insertLoop (s : UserSettings) (bill : Bill) (db : DB)
    (h : PairUnique db.reminders) :
    PairUnique (insertLoop s bill db).reminders := by
  rw [insertLoop]
  exact pairUnique_loopIns _ _ _ _ _ _ db h

lemma pairUnique_gen (sett : Option UserSettings) (op : TgOp) (bill : Bill)
    (today : Int) (db : DB) (h : PairUnique db.reminders) :
    PairUnique (handle_bills_generate_reminders sett op bill today db).reminders := by
  unfold handle_bills_generate_reminders
  cases sett with
  | none => exact h
  | some s =>
    by_cases hen : s.notifications_enabled
    · simp only [hen, Bool.not_true, Bool.false_eq_true, if_false]
      cases op with
      | ins => exact pairUnique_insertLoop s bill db h
      | upd oldDue =>
        show PairUnique (insertLoop s bill
          (if bill.due_date ≠ oldDue then deleteFutureUnsent db bill.id today else db)).reminders
        by_cases hch : bill.due_date ≠ oldDue
        · rw [if_pos hch]
          exact pairUnique_insertLoop s bill _ (pairUnique_filter _ _ h)
        · rw [if_neg hch]
          exact pairUnique_insertLoop s bill db h
    · have hen' : s.notifications_enabled = false := by simpa using hen
      simp only [hen', Bool.not_false, if_true]
      exact h

lemma pairUnique_cancel (oldPaid newPaid : Bool) (billId : Nat) (db : DB)
    (h : PairUnique db.reminders) :
    PairUnique (handle_bills_cancel_reminders_on_paid oldPaid newPaid billId db).reminders := by
  unfold handle_bills_cancel_reminders_on_paid
  by_cases hc : (newPaid && !(oldPaid == newPaid))
  · rw [if_pos hc]
    exact pairUnique_filter _ _ h
  · rw [if_neg hc]
    exact h

lemma pairUnique_update (sett : Option UserSettings) (dueTouched paidTouched : Bool)
    (oldBill newBill : Bill) (today : Int) (db : DB) (h : PairUnique db.reminders) :
    PairUnique (bills_after_update sett dueTouched paidTouched oldBill newBill today db).reminders := by
  unfold bills_after_update
  have h1 : PairUnique (if paidTouched then
      handle_bills_cancel_reminders_on_paid oldBill.paid newBill.paid newBill.id db
      else db).reminders := by
    by_cases hp : paidTouched
    · rw [if_pos hp]
      exact pairUnique_cancel _ _ _ _ h
    · rw [if_neg hp]
      exact h
  by_cases hd : dueTouched
  · rw [if_pos hd]
    exact pairUnique_gen _ _ _ _ _ h1
  · rw [if_neg hd]
    exact h1

lemma pairUnique_map_markIf (rs : List Reminder) (c : Reminder → Bool) (now : Int)
    (h : PairUnique rs) :
    PairUnique (rs.map (fun r => if c r then { r with sent_at := some now } else r)) := by
  rw [PairUnique, List.pairwise_map]
  refine h.imp ?_
  intro a b hab hcontra
  apply hab
  obtain ⟨h1, h2⟩ := hcontra
  have ha1 : (if c a then { a with sent_at := some now } else a).bill_id = a.bill_id := by
    by_cases hx : c a <;> simp [hx]
  have hb1 : (if c b then { b with sent_at := some now } else b).bill_id = b.bill_id := by
    by_cases hx : c b <;> simp [hx]
  have ha2 : (if c a then { a with sent_at := some now } else a).remind_date = a.remind_date := by
    by_cases hx : c a <;> simp [hx]
  have hb2 : (if c b then { b with sent_at := some now } else b).remind_date = b.remind_date := by
    by_cases hx : c b <;> simp [hx]
  rw [ha1, hb1] at h1
  rw [ha2, hb2] at h2
  exact ⟨h1, h2⟩

lemma pairUnique_handler (env : Env) (today : Int) (st : DState)
    (h : PairUnique st.reminders) :
    PairUnique ((handler env today st).state.reminders) := by
  rw [handler_reminders]
  exact pairUnique_map_markIf _ _ _ h

/-- States of the reminder table reachable from the empty table through the
operations of the system: bill inserts, bill updates (with their trigger
effects), and dispatch runs. -/
inductive Reachable : DB → Prop where
  | init : Reachable ⟨[], 0⟩
  | insertBill (sett : Option UserSettings) (bill : Bill) (today : Int) {db : DB} :
      Reachable db → Reachable (bills_after_insert sett bill today db)
  | updateBill (sett : Option UserSettings) (dueTouched paidTouched : Bool)
      (oldBill newBill : Bill) (today : Int) {db : DB} :
      Reachable db →
      Reachable (bills_after_update sett dueTouched paidTouched oldBill newBill today db)
  | dispatchRun (env : Env) (today : Int) (bills : List Bill)
      (settings : List UserSettings) {db : DB} :
      Reachable db →
      Reachable ⟨(handler env today ⟨db.reminders, bills, settings⟩).state.reminders, db.nextId⟩

/-- C5: every reachable reminder table has at most one row per
`(bill_id, remind_date)` pair, and a conflicting insert (same bill, same
date) is a silent no-op — the total function returns the store unchanged,
so it neither errors nor creates a second row. -/
theorem reminders_pair_unique :
    (∀ db : DB, Reachable db → PairUnique db.reminders)
    ∧ (∀ (db : DB) (u b : Nat) (t : Int) (e w : Bool),
        hasPair db.reminders b t = true → insertReminderIgnore db u b t e w = db) := by
  constructor
  · intro db h
    induction h with
    | init => exact List.Pairwise.nil
    | insertBill sett bill today _ ih =>
      exact pairUnique_gen sett TgOp.ins bill today _ ih
    | updateBill sett dueTouched paidTouched oldBill newBill today _ ih =>
      exact pairUnique_update sett dueTouched paidTouched oldBill newBill today _ ih
    | dispatchRun env today bills settings _ ih =>
      exact pairUnique_handler env today ⟨_, bills, settings⟩ ih
  · intro db u b t e w hc
    unfold insertReminderIgnore
    rw [if_pos hc]

/-- Witness for C5: the table after one insert with offsets `{1, 3}` is
pair-unique, and re-inserting an existing `(bill, date)` pair returns the
store unchanged. -/
theorem reminders_pair_unique_witness :
    PairUnique (bills_after_insert (some ⟨7, true, ["a@x.com"], [], [1, 3]⟩)
        ⟨1, 7, "conta", 100, 20, false⟩ 10 ⟨[], 0⟩).reminders
    ∧ insertReminderIgnore ⟨[⟨0, 7, 1, 19, true, false, none⟩], 1⟩ 7 1 19 true false
        = ⟨[⟨0, 7, 1, 19, true, false, none⟩], 1⟩ :=
  ⟨reminders_pair_unique.1 _
      (Reachable.insertBill (some ⟨7, true, ["a@x.com"], [], [1, 3]⟩)
        ⟨1, 7, "conta", 100, 20, false⟩ 10 Reachable.init),
   reminders_pair_unique.2 ⟨[⟨0, 7, 1, 19, true, false, none⟩], 1⟩ 7 1 19 true false
      (by decide)⟩
